import Mathlib

/-!
Shallow embedding of `src/guess_the_number.py`, a Streamlit number-guessing
game with a Google-Sheets leaderboard, together with proofs about the claims
of the specification.

Conventions of the embedding:
* Streamlit's `st.session_state` fields `number_to_guess`, `attempts`,
  `max_attempts`, `last_max_num` become the fields of `GameState`.
* `random.randint(1, max_num)` is an external effect; each function that calls
  it takes the drawn value as an explicit argument (theorems that need the
  `randint` contract assume `1 <= draw <= max_num` as a hypothesis).
* `datetime.utcnow().isoformat(...)` is likewise passed in as a string.
* The Google Sheet is a `List (List String)` of rows; `add_score` appends to
  it, `load_leaderboard` decodes, sorts and truncates it.
* Python's `str.strip` (default whitespace strip) is `pyStrip`, Python's
  `int(...)` on strings is `pyInt` (returning `none` where Python raises
  `ValueError`), and Python's tuple-lexicographic string comparison used by
  `sorted(..., key=lambda x: (x["attempts"], x["timestamp"]))` is `charsLt`
  on code points.
-/

/-! ## Game session state (Streamlit `st.session_state`) -/

/-- Session fields kept by the script across reruns: the secret number, the
attempt counter, the attempt cap and the difficulty that was last active
(lines 146-150 of the source). -/
structure GameState where
  number_to_guess : Nat
  attempts : Nat
  max_attempts : Nat
  last_max_num : Nat
deriving DecidableEq

/-- Outcome reported to the player by one press of the Submit Guess button. -/
inductive Outcome where
  | tooLow
  | tooHigh
  | win
  | validationError
deriving DecidableEq

/-- Data handed to `add_score` on a win: the stripped player name and the
attempt counter at the moment of the winning guess (line 181). -/
structure PendingScore where
  name : String
  attempts : Nat
deriving DecidableEq

/-- Result of one press of the Submit Guess button: the new session state, the
outcome message, whether the out-of-tries message of line 186-188 fired, and
the score record scheduled for persistence, if any. -/
structure SubmitResult where
  state : GameState
  outcome : Outcome
  exhausted : Bool
  persisted : Option PendingScore
deriving DecidableEq

/-! ## Python string helpers used by the handlers -/

/-- Whitespace stripped by Python's default `str.strip()`: space, `\t`, `\n`,
`\r`, `\x0b`, `\x0c` (the further Unicode whitespace Python also strips does
not occur in this development). -/
def pyIsSpace (c : Char) : Bool :=
  c.toNat = 32 || (9 ≤ c.toNat && c.toNat ≤ 13)

/-- Python `str.strip()` on the character list of a string. -/
def pyStrip (cs : List Char) : List Char :=
  ((cs.dropWhile pyIsSpace).reverse.dropWhile pyIsSpace).reverse

/-- Python `name.strip()`. -/
def pyStripStr (s : String) : String :=
  ⟨pyStrip s.data⟩

/-! ## Session initialisation and the difficulty guard -/

/-- The body of the reset block, lines 147-150: a fresh secret (`draw` stands
for `random.randint(1, max_num)`), `attempts = 0`, the hard-coded cap 10, and
`last_max_num` recorded. -/
def startSession (max_num draw : Nat) : GameState :=
  { number_to_guess := draw, attempts := 0, max_attempts := 10, last_max_num := max_num }

/-- Lines 145-150: the session is (re)initialised only when no session exists
yet (`"last_max_num" not in st.session_state`) or the selected difficulty
differs from `last_max_num`; otherwise the state is left untouched. -/
def difficultyReset (prev : Option GameState) (max_num draw : Nat) : GameState :=
  match prev with
  | none => startSession max_num draw
  | some s => if s.last_max_num ≠ max_num then startSession max_num draw else s

/-- Lines 161-164, the Restart Game button: a fresh secret and a zeroed
attempt counter; `max_attempts` and `last_max_num` are untouched. -/
def restartGame (s : GameState) (draw : Nat) : GameState :=
  { s with number_to_guess := draw, attempts := 0 }

/-! ## The Submit Guess button handler -/

/-- Lines 167-188, one press of the Submit Guess button.

The source runs: reject when `name.strip()` is empty; otherwise increment
`attempts`, compare `guess` with `number_to_guess` (warn too low / too high,
or on equality call `add_score(name.strip(), attempts)` and reset the session
with a fresh draw), and finally show the out-of-tries message when the
post-update `attempts >= max_attempts and guess != target` (line 186). The
line-186 test is written here once per branch, evaluated on that branch's
post-update state, exactly as the sequential Python code does. -/
def submitGuess (s : GameState) (name : String) (guess draw : Nat) : SubmitResult :=
  if pyStripStr name = "" then
    { state := s, outcome := .validationError, exhausted := false, persisted := none }
  else if guess < s.number_to_guess then
    { state := { s with attempts := s.attempts + 1 }
      outcome := .tooLow
      exhausted := decide (s.max_attempts ≤ s.attempts + 1) && decide (guess ≠ s.number_to_guess)
      persisted := none }
  else if s.number_to_guess < guess then
    { state := { s with attempts := s.attempts + 1 }
      outcome := .tooHigh
      exhausted := decide (s.max_attempts ≤ s.attempts + 1) && decide (guess ≠ s.number_to_guess)
      persisted := none }
  else
    { state := { s with number_to_guess := draw, attempts := 0 }
      outcome := .win
      exhausted := decide (s.max_attempts ≤ 0) && decide (guess ≠ s.number_to_guess)
      persisted := some { name := pyStripStr name, attempts := s.attempts + 1 } }

/-! ## The leaderboard store (`add_score`, `load_leaderboard`) -/

/-- Value of a non-empty all-digit character list, `none` otherwise. -/
def digitsVal (cs : List Char) : Option Nat :=
  if cs.isEmpty then none
  else if cs.all Char.isDigit then
    some (cs.foldl (fun acc c => acc * 10 + (c.toNat - 48)) 0)
  else none

/-- Python `int(s)` on a string: surrounding whitespace is ignored, an
optional sign precedes a non-empty run of digits, anything else raises
`ValueError`, modelled as `none`. (Python additionally accepts underscores
between digits and non-ASCII decimal digits; no input of this development
uses them.) -/
def pyInt (s : String) : Option Int :=
  match pyStrip s.data with
  | '-' :: rest => (digitsVal rest).map (fun n => -(n : Int))
  | '+' :: rest => (digitsVal rest).map (fun n => (n : Int))
  | cs => (digitsVal cs).map (fun n => (n : Int))

/-- One decoded leaderboard record, as built on line 113 of the source. -/
structure ScoreRec where
  name : String
  attempts : Int
  timestamp : String
deriving DecidableEq

/-- Lines 106-113: decoding of one raw sheet row.  Missing cells default to
`""` for the name and timestamp and to `"0"` for the attempts string; a
string `int(...)` cannot parse becomes `0` via the bare `except`. -/
def decodeRow (r : List String) : ScoreRec :=
  { name := r.getD 0 ""
    attempts := (pyInt (r.getD 1 "0")).getD 0
    timestamp := r.getD 2 "" }

/-- Python string comparison: lexicographic on code points. -/
def charsLt : List Char → List Char → Bool
  | _, [] => false
  | [], _ :: _ => true
  | a :: as, b :: bs =>
    if a.toNat < b.toNat then true
    else if b.toNat < a.toNat then false
    else charsLt as bs

/-- Python `s < t` on strings. -/
def strLt (s t : String) : Bool :=
  charsLt s.data t.data

/-- Python `(a.attempts, a.timestamp) < (b.attempts, b.timestamp)`: the strict
tuple comparison under the sort key of line 114. -/
def keyLt (a b : ScoreRec) : Bool :=
  if a.attempts < b.attempts then true
  else if b.attempts < a.attempts then false
  else strLt a.timestamp b.timestamp

/-- Record `a` may be placed before record `b`: the non-strict counterpart of
`keyLt`, the order a stable sort under the line-114 key realises. -/
def recLE (a b : ScoreRec) : Prop :=
  keyLt b a = false

instance : DecidableRel recLE :=
  fun a b => inferInstanceAs (Decidable (keyLt b a = false))

/-- Line 114, `sorted(records, key=lambda x: (x["attempts"], x["timestamp"]))`.
Python's `sorted` is a stable sort; a stable sort's output is determined by
the ordering and the input alone, so the stable `List.insertionSort` under
the non-strict key order is extensionally the same function. -/
def sortRecords (l : List ScoreRec) : List ScoreRec :=
  List.insertionSort recLE l

/-- Lines 100-115 of `load_leaderboard`, from the raw cell rows onward: with
at most one row (the header alone, or nothing) the result is `[]`; otherwise
every row after the header is decoded, the records are sorted under the
line-114 key, and the first `limit` records are kept.  (The Python default is
`limit=10`; the `try` around the Sheets call and the 30-second cache are
external effects outside this embedding.) -/
def load_leaderboard (rows : List (List String)) (limit : Nat) : List ScoreRec :=
  if rows.length ≤ 1 then []
  else (sortRecords ((rows.drop 1).map decodeRow)).take limit

/-- The row `add_score` appends, line 76: `[name, str(attempts), ts]`. -/
def scoreRow (name : String) (attempts : Nat) (ts : String) : List String :=
  [name, toString attempts, ts]

/-- Lines 73-87, `add_score`: the row is appended to the sheet as-is.  No
header is ever written, by this function or anywhere else in the source. -/
def add_score (sheet : List (List String)) (name : String) (attempts : Nat)
    (ts : String) : List (List String) :=
  sheet ++ [scoreRow name attempts ts]

/-! ## Order-theoretic facts about the sort key -/

theorem charsLt_irrefl : ∀ cs, charsLt cs cs = false
  | [] => rfl
  | c :: cs => by simp [charsLt, charsLt_irrefl cs]

theorem charsLt_trans : ∀ {x y z : List Char},
    charsLt x y = true → charsLt y z = true → charsLt x z = true
  | _, [], _, hxy, _ => by simp [charsLt] at hxy
  | _ :: _, _ :: _, [], _, hyz => by simp [charsLt] at hyz
  | [], _ :: _, _ :: _, _, _ => by simp [charsLt]
  | a :: as, b :: bs, c :: cs, hxy, hyz => by
    simp only [charsLt] at hxy hyz ⊢
    by_cases hab : a.toNat < b.toNat
    · by_cases hbc : b.toNat < c.toNat
      · rw [if_pos (by omega)]
      · by_cases hcb : c.toNat < b.toNat
        · rw [if_neg hbc, if_pos hcb] at hyz
          exact absurd hyz (by simp)
        · rw [if_pos (by omega : a.toNat < c.toNat)]
    · by_cases hba : b.toNat < a.toNat
      · rw [if_neg hab, if_pos hba] at hxy
        exact absurd hxy (by simp)
      · rw [if_neg hab, if_neg hba] at hxy
        by_cases hbc : b.toNat < c.toNat
        · rw [if_pos (by omega)]
        · by_cases hcb : c.toNat < b.toNat
          · rw [if_neg hbc, if_pos hcb] at hyz
            exact absurd hyz (by simp)
          · rw [if_neg hbc, if_neg hcb] at hyz
            rw [if_neg (by omega : ¬ a.toNat < c.toNat),
              if_neg (by omega : ¬ c.toNat < a.toNat)]
            exact charsLt_trans hxy hyz

theorem charsLt_conn : ∀ {x y : List Char},
    charsLt x y = false → charsLt y x = false → x = y
  | [], [], _, _ => rfl
  | [], _ :: _, hxy, _ => by simp [charsLt] at hxy
  | _ :: _, [], _, hyx => by simp [charsLt] at hyx
  | a :: as, b :: bs, hxy, hyx => by
    simp only [charsLt] at hxy hyx
    have hab : a.toNat = b.toNat := by
      by_cases h1 : a.toNat < b.toNat
      · simp [h1] at hxy
      · by_cases h2 : b.toNat < a.toNat
        · simp [h1, h2] at hyx
        · omega
    have hchars : a = b := Char.eq_of_val_eq (UInt32.ext hab)
    have htail : as = bs := by
      refine charsLt_conn ?_ ?_
      · simpa [Nat.lt_irrefl, hab] using hxy
      · simpa [Nat.lt_irrefl, hab] using hyx
    rw [hchars, htail]

theorem strLt_asymm {s t : String} (h : strLt s t = true) : strLt t s = false := by
  cases hx : strLt t s
  · rfl
  · exfalso
    have h5 : charsLt s.data s.data = true := charsLt_trans h hx
    rw [charsLt_irrefl] at h5
    exact Bool.noConfusion h5

theorem strLt_conn {s t : String} (hst : strLt s t = false) (hts : strLt t s = false) :
    s = t := by
  have h : s.data = t.data := charsLt_conn hst hts
  cases s
  cases t
  exact congrArg String.mk h

theorem strLt_negtrans {a b c : String} (h1 : strLt b a = false)
    (h2 : strLt c b = false) : strLt c a = false := by
  cases hca : strLt c a
  · rfl
  · exfalso
    cases hbc : strLt b c
    · have hcb : c = b := strLt_conn h2 hbc
      rw [hcb] at hca
      rw [hca] at h1
      exact Bool.noConfusion h1
    · have h3 : strLt b a = true := charsLt_trans hbc hca
      rw [h3] at h1
      exact Bool.noConfusion h1

theorem keyLt_asymm {a b : ScoreRec} (h : keyLt a b = true) : keyLt b a = false := by
  unfold keyLt at h ⊢
  by_cases h1 : a.attempts < b.attempts
  · rw [if_neg (by omega), if_pos h1]
  · by_cases h2 : b.attempts < a.attempts
    · simp [h1, h2] at h
    · simp only [if_neg h1, if_neg h2] at h
      simp only [if_neg h2, if_neg h1]
      exact strLt_asymm h

theorem keyLt_false_trans {a b c : ScoreRec}
    (hab : keyLt b a = false) (hbc : keyLt c b = false) : keyLt c a = false := by
  unfold keyLt at hab hbc ⊢
  by_cases h1 : b.attempts < a.attempts
  · simp [h1] at hab
  · by_cases h2 : c.attempts < b.attempts
    · simp [h2] at hbc
    · by_cases h3 : c.attempts < a.attempts
      · omega
      · rw [if_neg h3]
        by_cases h4 : a.attempts < c.attempts
        · rw [if_pos h4]
        · rw [if_neg h4]
          simp only [if_neg h1, if_neg (by omega : ¬ a.attempts < b.attempts)] at hab
          simp only [if_neg h2, if_neg (by omega : ¬ b.attempts < c.attempts)] at hbc
          exact strLt_negtrans hab hbc

instance : IsTrans ScoreRec recLE :=
  ⟨fun _ _ _ hab hbc => keyLt_false_trans hab hbc⟩

instance : IsTotal ScoreRec recLE :=
  ⟨fun a b => by
    unfold recLE
    cases h : keyLt a b
    · exact Or.inr rfl
    · exact Or.inl (keyLt_asymm h)⟩

/-- The ordering the specification states for the displayed leaderboard:
ascending `attempts`, ties broken by ascending (earlier-first) timestamp. -/
def ordKey (a b : ScoreRec) : Prop :=
  a.attempts < b.attempts ∨
    (a.attempts = b.attempts ∧ (strLt a.timestamp b.timestamp = true ∨ a.timestamp = b.timestamp))

theorem recLE_ordKey {a b : ScoreRec} (h : recLE a b) : ordKey a b := by
  unfold recLE keyLt at h
  by_cases h1 : b.attempts < a.attempts
  · simp [h1] at h
  · by_cases h2 : a.attempts < b.attempts
    · exact Or.inl h2
    · have he : a.attempts = b.attempts := by omega
      simp only [if_neg h1, if_neg h2] at h
      refine Or.inr ⟨he, ?_⟩
      cases hab : strLt a.timestamp b.timestamp
      · exact Or.inr (strLt_conn hab h)
      · exact Or.inl rfl

theorem sortRecords_pairwise (l : List ScoreRec) :
    List.Pairwise recLE (sortRecords l) :=
  List.sorted_insertionSort recLE l

theorem sortRecords_perm (l : List ScoreRec) : (sortRecords l).Perm l :=
  List.perm_insertionSort recLE l

theorem load_leaderboard_pairwise (rows : List (List String)) (limit : Nat) :
    List.Pairwise recLE (load_leaderboard rows limit) := by
  unfold load_leaderboard
  split
  · exact List.Pairwise.nil
  · exact List.Pairwise.sublist (List.take_sublist _ _) (sortRecords_pairwise _)

theorem load_leaderboard_length (rows : List (List String)) (limit : Nat) :
    (load_leaderboard rows limit).length ≤ limit := by
  unfold load_leaderboard
  split
  · simp
  · rw [List.length_take]
    exact min_le_left _ _

/-! ## Claims about the game session -/

/-- C1 (code bug in the source): the Submit Guess handler never checks the
attempt cap before accepting a guess.  Each accepted non-winning guess does
increment `attempts` by exactly 1, but from a fresh session with cap 10, ten
accepted misses reach `attempts = 10` and an eleventh accepted miss is still
processed, driving `attempts` to 11 > `max_attempts`, violating the claimed
invariant `attempts <= attemptLimit`. -/
theorem c1_attempts_exceed_cap :
    ((fun s => (submitGuess s "P" 1 27).state)^[10] (startSession 50 27)).attempts = 10 ∧
    (submitGuess ((fun s => (submitGuess s "P" 1 27).state)^[10] (startSession 50 27))
        "P" 1 27).outcome = Outcome.tooLow ∧
    (submitGuess ((fun s => (submitGuess s "P" 1 27).state)^[10] (startSession 50 27))
        "P" 1 27).state.attempts = 11 ∧
    (startSession 50 27).max_attempts = 10 := by
  decide

/-- C2 (code bug in the source): after ten consecutive misses the tenth press
does flag exhaustion and persists nothing, as claimed, but an eleventh guess
submitted before any restart is neither rejected nor ignored: it is evaluated
normally, and a correct eleventh guess even wins, persists a record with
`attemptsUsed = 11` and resets the session. -/
theorem c2_eleventh_guess_not_ignored :
    (submitGuess ((fun s => (submitGuess s "P" 1 27).state)^[9] (startSession 50 27))
        "P" 1 27).exhausted = true ∧
    (submitGuess ((fun s => (submitGuess s "P" 1 27).state)^[9] (startSession 50 27))
        "P" 1 27).persisted = none ∧
    (submitGuess ((fun s => (submitGuess s "P" 1 27).state)^[10] (startSession 50 27))
        "P" 27 33).outcome = Outcome.win ∧
    (submitGuess ((fun s => (submitGuess s "P" 1 27).state)^[10] (startSession 50 27))
        "P" 27 33).persisted = some { name := "P", attempts := 11 } ∧
    (submitGuess ((fun s => (submitGuess s "P" 1 27).state)^[10] (startSession 50 27))
        "P" 27 33).state ≠
      (fun s => (submitGuess s "P" 1 27).state)^[10] (startSession 50 27) := by
  decide

/-- C3: re-running the difficulty guard with the session's current
`last_max_num` leaves the whole session state untouched (in particular the
secret number and the attempt counter); with a different difficulty it is
exactly the fresh-session initialisation `startSession max_num draw`, whose
attempt counter is 0 and whose secret is the fresh draw. -/
theorem c3_difficulty_guard (s : GameState) (max_num draw : Nat) :
    (s.last_max_num = max_num → difficultyReset (some s) max_num draw = s) ∧
    (s.last_max_num ≠ max_num →
      difficultyReset (some s) max_num draw = startSession max_num draw ∧
      (difficultyReset (some s) max_num draw).attempts = 0) := by
  constructor
  · intro h
    simp [difficultyReset, h]
  · intro h
    simp [difficultyReset, h, startSession]

/-- Witness for C3 at concrete inputs: same difficulty 50 is a no-op, new
difficulty 100 re-initialises. -/
theorem c3_witness :
    difficultyReset (some (startSession 50 27)) 50 3 = startSession 50 27 ∧
    difficultyReset (some (startSession 100 27)) 50 3 = startSession 50 3 :=
  ⟨(c3_difficulty_guard (startSession 50 27) 50 3).1 rfl,
   ((c3_difficulty_guard (startSession 100 27) 50 3).2 (by decide)).1⟩

/-- C4: an accepted guess in an active round strictly below the secret yields
`tooLow`, strictly above yields `tooHigh`; in both cases the secret is
unchanged, `attempts` grows by exactly one and nothing is persisted, so the
round continues. -/
theorem c4_too_low_too_high (s : GameState) (name : String) (guess draw : Nat)
    (hname : pyStripStr name ≠ "") (hactive : s.attempts < s.max_attempts) :
    (guess < s.number_to_guess →
      (submitGuess s name guess draw).outcome = Outcome.tooLow ∧
      (submitGuess s name guess draw).state.number_to_guess = s.number_to_guess ∧
      (submitGuess s name guess draw).state.attempts = s.attempts + 1 ∧
      (submitGuess s name guess draw).persisted = none) ∧
    (s.number_to_guess < guess →
      (submitGuess s name guess draw).outcome = Outcome.tooHigh ∧
      (submitGuess s name guess draw).state.number_to_guess = s.number_to_guess ∧
      (submitGuess s name guess draw).state.attempts = s.attempts + 1 ∧
      (submitGuess s name guess draw).persisted = none) := by
  unfold submitGuess
  rw [if_neg hname]
  constructor
  · intro h
    rw [if_pos h]
    exact ⟨rfl, rfl, rfl, rfl⟩
  · intro h
    rw [if_neg (by omega), if_pos h]
    exact ⟨rfl, rfl, rfl, rfl⟩

/-- Witness for C4: in a fresh Easy session with secret 27, guessing 10 is
too low and guessing 40 is too high, each leaving the secret in place. -/
theorem c4_witness :
    ((submitGuess (startSession 50 27) "Alice" 10 5).outcome = Outcome.tooLow ∧
      (submitGuess (startSession 50 27) "Alice" 10 5).state.number_to_guess =
        (startSession 50 27).number_to_guess ∧
      (submitGuess (startSession 50 27) "Alice" 10 5).state.attempts =
        (startSession 50 27).attempts + 1 ∧
      (submitGuess (startSession 50 27) "Alice" 10 5).persisted = none) ∧
    ((submitGuess (startSession 50 27) "Alice" 40 5).outcome = Outcome.tooHigh ∧
      (submitGuess (startSession 50 27) "Alice" 40 5).state.number_to_guess =
        (startSession 50 27).number_to_guess ∧
      (submitGuess (startSession 50 27) "Alice" 40 5).state.attempts =
        (startSession 50 27).attempts + 1 ∧
      (submitGuess (startSession 50 27) "Alice" 40 5).persisted = none) :=
  ⟨(c4_too_low_too_high (startSession 50 27) "Alice" 10 5 (by decide) (by decide)).1
      (by decide),
   (c4_too_low_too_high (startSession 50 27) "Alice" 40 5 (by decide) (by decide)).2
      (by decide)⟩

/-- C5: an accepted guess equal to the secret wins: the record scheduled for
persistence carries the stripped name and the attempt count at the winning
guess (the just-incremented counter), the session auto-resets to
`attempts = 0`, and, under the `randint` contract on the fresh draw, the new
secret lies in `[1, last_max_num]`. -/
theorem c5_win_persists_and_resets (s : GameState) (name : String) (guess draw : Nat)
    (hname : pyStripStr name ≠ "") (hguess : guess = s.number_to_guess)
    (hd1 : 1 ≤ draw) (hd2 : draw ≤ s.last_max_num) :
    (submitGuess s name guess draw).outcome = Outcome.win ∧
    (submitGuess s name guess draw).persisted =
      some { name := pyStripStr name, attempts := s.attempts + 1 } ∧
    (submitGuess s name guess draw).state.attempts = 0 ∧
    1 ≤ (submitGuess s name guess draw).state.number_to_guess ∧
    (submitGuess s name guess draw).state.number_to_guess ≤ s.last_max_num := by
  unfold submitGuess
  rw [if_neg hname, if_neg (by omega), if_neg (by omega)]
  exact ⟨rfl, rfl, rfl, hd1, hd2⟩

/-- Witness for C5, the specification's own scenario: Easy session with secret
27, guesses 10 (too low), 40 (too high), then 27 wins and schedules a record
with `attemptsUsed = 3`, after which `attempts` is 0 and the new secret is the
fresh draw 33. -/
theorem c5_witness :
    (submitGuess ((submitGuess ((submitGuess (startSession 50 27) "Bo" 10 33).state)
          "Bo" 40 33).state) "Bo" 27 33).outcome = Outcome.win ∧
    (submitGuess ((submitGuess ((submitGuess (startSession 50 27) "Bo" 10 33).state)
          "Bo" 40 33).state) "Bo" 27 33).persisted =
      some { name := pyStripStr "Bo",
             attempts := ((submitGuess ((submitGuess (startSession 50 27) "Bo" 10 33).state)
                  "Bo" 40 33).state).attempts + 1 } ∧
    (submitGuess ((submitGuess ((submitGuess (startSession 50 27) "Bo" 10 33).state)
          "Bo" 40 33).state) "Bo" 27 33).state.attempts = 0 ∧
    1 ≤ (submitGuess ((submitGuess ((submitGuess (startSession 50 27) "Bo" 10 33).state)
          "Bo" 40 33).state) "Bo" 27 33).state.number_to_guess ∧
    (submitGuess ((submitGuess ((submitGuess (startSession 50 27) "Bo" 10 33).state)
          "Bo" 40 33).state) "Bo" 27 33).state.number_to_guess ≤
      ((submitGuess ((submitGuess (startSession 50 27) "Bo" 10 33).state)
          "Bo" 40 33).state).last_max_num :=
  c5_win_persists_and_resets
    ((submitGuess ((submitGuess (startSession 50 27) "Bo" 10 33).state) "Bo" 40 33).state)
    "Bo" 27 33 (by decide) (by decide) (by decide) (by decide)

/-- C6: a submission whose player name strips to the empty string is rejected
with the validation error and mutates nothing: the state (secret number and
attempt counter included) is returned unchanged and nothing is persisted. -/
theorem c6_blank_name_no_mutation (s : GameState) (name : String) (guess draw : Nat)
    (h : pyStripStr name = "") :
    submitGuess s name guess draw =
      { state := s, outcome := Outcome.validationError, exhausted := false,
        persisted := none } := by
  unfold submitGuess
  rw [if_pos h]

/-- Witness for C6: a whitespace-only name on a fresh session. -/
theorem c6_witness :
    submitGuess (startSession 50 27) "   " 10 5 =
      { state := startSession 50 27, outcome := Outcome.validationError,
        exhausted := false, persisted := none } :=
  c6_blank_name_no_mutation (startSession 50 27) "   " 10 5 (by decide)

/-! ## Claims about the leaderboard -/

/-- C7: `load_leaderboard` returns at most `limit` records, its output is
sorted by ascending `attempts` with ties broken by ascending timestamp, and
on the specification's example (header row, then `(A,5,t1)`, `(B,3,t2)`,
`(C,3,t1)` with `t1 < t2`) the top-10 view is `[C, B, A]`. -/
theorem c7_leaderboard_sorted_truncated :
    (∀ rows limit, (load_leaderboard rows limit).length ≤ limit) ∧
    (∀ rows limit, List.Pairwise ordKey (load_leaderboard rows limit)) ∧
    load_leaderboard
        [["name", "attempts", "timestamp"],
         ["A", "5", "2024-01-01T00:00:00"],
         ["B", "3", "2024-01-02T00:00:00"],
         ["C", "3", "2024-01-01T00:00:00"]] 10 =
      [{ name := "C", attempts := 3, timestamp := "2024-01-01T00:00:00" },
       { name := "B", attempts := 3, timestamp := "2024-01-02T00:00:00" },
       { name := "A", attempts := 5, timestamp := "2024-01-01T00:00:00" }] :=
  ⟨load_leaderboard_length,
   fun rows limit =>
     (load_leaderboard_pairwise rows limit).imp (fun h => recLE_ordKey h),
   by decide⟩

/-- C8: decoding a raw sheet row is a total function with the claimed
coercions: a missing attempts cell (row shorter than 2) or an unparsable
attempts string decodes to 0; a missing name cell decodes to `""`; a missing
timestamp cell decodes to `""`; the specification's `"N/A"` example decodes
to attempts 0 rather than raising. -/
theorem c8_decode_total_and_coercing :
    (∀ row : List String, row.length ≤ 1 → (decodeRow row).attempts = 0) ∧
    (∀ row : List String, pyInt (row.getD 1 "0") = none → (decodeRow row).attempts = 0) ∧
    (∀ row : List String, row.length = 0 → (decodeRow row).name = "") ∧
    (∀ row : List String, row.length ≤ 2 → (decodeRow row).timestamp = "") ∧
    decodeRow ["P", "N/A"] = { name := "P", attempts := 0, timestamp := "" } := by
  refine ⟨?_, ?_, ?_, ?_, by decide⟩
  · intro row h
    show (pyInt (row.getD 1 "0")).getD 0 = 0
    rw [List.getD_eq_default _ _ (by omega)]
    rfl
  · intro row h
    show (pyInt (row.getD 1 "0")).getD 0 = 0
    rw [h]
    rfl
  · intro row h
    show row.getD 0 "" = ""
    rw [List.length_eq_zero.mp h]
    rfl
  · intro row h
    show row.getD 2 "" = ""
    exact List.getD_eq_default _ _ (by omega)

/-- Witness for C8 at concrete rows: a one-cell row, an unparsable attempts
string, the empty row and a two-cell row. -/
theorem c8_witness :
    (decodeRow ["solo"]).attempts = 0 ∧
    (decodeRow ["P", "N/A", "t"]).attempts = 0 ∧
    (decodeRow ([] : List String)).name = "" ∧
    (decodeRow ["P", "3"]).timestamp = "" :=
  ⟨c8_decode_total_and_coercing.1 ["solo"] (by decide),
   c8_decode_total_and_coercing.2.1 ["P", "N/A", "t"] (by decide),
   c8_decode_total_and_coercing.2.2.1 [] rfl,
   c8_decode_total_and_coercing.2.2.2.1 ["P", "3"] (by decide)⟩

/-- C9 (code bug in the source): no function of the script ever writes a
header row.  `add_score` into an empty sheet appends the score itself as the
first row, and `load_leaderboard` then unconditionally discards that first
row as if it were the header, so the first score recorded into a headerless
sheet is never displayed. -/
theorem c9_first_write_swallowed_as_header :
    add_score [] "Alice" 3 "2024-05-01T10:00:00" =
      [["Alice", "3", "2024-05-01T10:00:00"]] ∧
    load_leaderboard (add_score [] "Alice" 3 "2024-05-01T10:00:00") 10 = [] := by
  exact ⟨rfl, rfl⟩

/-- C10: a record decoded from a malformed row carries `attempts = 0` and
therefore sorts ahead of every genuinely recorded score (whose attempts are
at least 1): whenever some row after the header has an unparsable attempts
cell and no row decodes to negative attempts, the head of the displayed
leaderboard has `attempts = 0`; and in any displayed leaderboard every
record with `attempts = 0` is placed before every record with positive
attempts. -/
theorem c10_malformed_rows_rank_first :
    (∀ rows limit, 1 ≤ limit →
      (∃ m, m ∈ rows.drop 1 ∧ pyInt (m.getD 1 "0") = none) →
      (∀ r, r ∈ rows.drop 1 → 0 ≤ (decodeRow r).attempts) →
      ∃ r0, (load_leaderboard rows limit).head? = some r0 ∧ r0.attempts = 0) ∧
    (∀ rows limit i j (hi : i < (load_leaderboard rows limit).length)
        (hj : j < (load_leaderboard rows limit).length),
      1 ≤ ((load_leaderboard rows limit).get ⟨i, hi⟩).attempts →
      ((load_leaderboard rows limit).get ⟨j, hj⟩).attempts = 0 →
      j < i) := by
  constructor
  · intro rows limit hlim hex hall
    obtain ⟨m, hm, hmi⟩ := hex
    have hm0 : (decodeRow m).attempts = 0 := by
      show (pyInt (m.getD 1 "0")).getD 0 = 0
      rw [hmi]
      rfl
    have hpos : 0 < (rows.drop 1).length :=
      List.length_pos.mpr (List.ne_nil_of_mem hm)
    have hlen2 : ¬ rows.length ≤ 1 := by
      rw [List.length_drop] at hpos
      omega
    unfold load_leaderboard
    rw [if_neg hlen2]
    have hmem : decodeRow m ∈ (rows.drop 1).map decodeRow :=
      List.mem_map_of_mem _ hm
    have hperm := sortRecords_perm ((rows.drop 1).map decodeRow)
    have hmem2 : decodeRow m ∈ sortRecords ((rows.drop 1).map decodeRow) :=
      hperm.mem_iff.mpr hmem
    cases hs : sortRecords ((rows.drop 1).map decodeRow) with
    | nil =>
      rw [hs] at hmem2
      exact absurd hmem2 (List.not_mem_nil _)
    | cons h0 t =>
      have htake : ((h0 :: t).take limit).head? = some h0 := by
        cases limit with
        | zero => omega
        | succ n => rfl
      refine ⟨h0, htake, ?_⟩
      have hsorted := sortRecords_pairwise ((rows.drop 1).map decodeRow)
      rw [hs] at hsorted
      have hhmem : h0 ∈ (rows.drop 1).map decodeRow :=
        hperm.mem_iff.mp (hs ▸ List.mem_cons_self h0 t)
      obtain ⟨rr, hrr, hre⟩ := List.mem_map.mp hhmem
      have h0nonneg : 0 ≤ h0.attempts := hre ▸ hall rr hrr
      rw [hs] at hmem2
      rcases List.mem_cons.mp hmem2 with he | ht
      · rw [← he]
        exact hm0
      · have hle : recLE h0 (decodeRow m) := (List.pairwise_cons.mp hsorted).1 _ ht
        unfold recLE keyLt at hle
        rw [hm0] at hle
        by_cases hlt : (0 : Int) < h0.attempts
        · rw [if_pos hlt] at hle
          exact absurd hle (by simp)
        · omega
  · intro rows limit i j hi hj h1 h0
    by_contra hc
    push_neg at hc
    have hij : i ≠ j := by
      intro he
      subst he
      have heq : ((load_leaderboard rows limit).get ⟨i, hi⟩) =
          ((load_leaderboard rows limit).get ⟨i, hj⟩) := rfl
      rw [heq, h0] at h1
      omega
    have hlt : i < j := Nat.lt_of_le_of_ne hc hij
    have hle := List.pairwise_iff_get.mp (load_leaderboard_pairwise rows limit)
      ⟨i, hi⟩ ⟨j, hj⟩ (Fin.mk_lt_mk.mpr hlt)
    unfold recLE keyLt at hle
    rw [h0] at hle
    rw [if_pos (by omega :
      (0 : Int) < ((load_leaderboard rows limit).get ⟨i, hi⟩).attempts)] at hle
    exact Bool.noConfusion hle

/-- Witness for C10: with one malformed row (attempts `"N/A"`) and one genuine
score of 3 attempts, the malformed record heads the displayed top 10, and the
genuine record sits strictly after it. -/
theorem c10_witness :
    (∃ r0, (load_leaderboard
        [["name", "attempts", "timestamp"],
         ["Mal", "N/A", "2024-01-03T00:00:00"],
         ["Ann", "3", "2024-01-01T00:00:00"]] 10).head? = some r0 ∧
      r0.attempts = 0) ∧
    (0 : Nat) < 1 := by
  constructor
  · exact c10_malformed_rows_rank_first.1 _ 10 (by omega)
      ⟨["Mal", "N/A", "2024-01-03T00:00:00"], by decide, by decide⟩ (by decide)
  · exact c10_malformed_rows_rank_first.2
      [["name", "attempts", "timestamp"],
       ["Mal", "N/A", "2024-01-03T00:00:00"],
       ["Ann", "3", "2024-01-01T00:00:00"]] 10 1 0
      (by decide) (by decide) (by decide) (by decide)
